import Mathlib

/-!
Verification of the scoring and risk-classification engine of the CLBH
Quick Checkup backend (`backend/server.py`).

The embedding covers the pure core: `calculate_score_and_risks`,
`get_risk_key`, `generate_action_plan`, and the static risk catalog
`RISK_DESCRIPTIONS`.  Machine arithmetic notes:

* Python ints are modelled as `Int`.
* Python float division and comparison are modelled exactly over `ℚ`;
  `round(x, 1)` is modelled as decimal round-half-to-even at one decimal
  (`pyRound1`), and `int(x)` as truncation toward zero (`pyInt`).
* Python's `sorted(answers, key=lambda x: x.points)` is a stable sort by
  the `points` key; `sorted_answers_of` implements exactly that (a stable
  sort by a key is extensionally unique), using a structurally recursive
  stable insertion sort.
-/

/-- `AssessmentAnswer` pydantic model (server.py lines 72-76).
`points` and `trigger_flag` are client-submitted and trusted as such. -/
structure AssessmentAnswer where
  question_id : String
  answer_value : String
  points : Int
  trigger_flag : Bool
  deriving DecidableEq

/-- A title/description pair of the static risk catalog `RISK_DESCRIPTIONS`. -/
structure RiskInfo where
  title : String
  description : String
  deriving DecidableEq

/-- An entry of the `top_risks` list built in `calculate_score_and_risks`
(server.py lines 852-857). -/
structure TopRisk where
  title : String
  description : String
  severity : String
  module : String
  deriving DecidableEq

/-- An entry of the `action_plan` list built in `generate_action_plan`
(server.py lines 947-973). -/
structure ActionItem where
  priority : Nat
  action : String
  description : String
  urgency : String
  deriving DecidableEq

/-- The dictionary returned by `calculate_score_and_risks`
(server.py lines 866-875). -/
structure ScoreResult where
  total_score : Int
  max_possible_score : Int
  score_percentage : ℚ
  risk_level : String
  trigger_flags : List String
  top_risks : List TopRisk
  action_plan : List ActionItem
  confidence_level : Int
  deriving DecidableEq

/-- The `"lease"` sub-dictionary of `RISK_DESCRIPTIONS` (server.py lines 742-757). -/
def lease_risks (key : String) : Option RiskInfo :=
  if key = "personal_name" then some ⟨"Lease Under Personal Name", "Signing a lease personally exposes your personal assets to business liabilities."⟩
  else if key = "personal_guarantee" then some ⟨"Unlimited Personal Guarantee", "An unlimited personal guarantee means your personal assets are at risk if the business can\x27t pay rent."⟩
  else if key = "unknown_costs" then some ⟨"Unknown Cost Exposure", "Not understanding your total lease costs could lead to unexpected financial burdens."⟩
  else if key = "no_cam_cap" then some ⟨"No CAM Cap", "Without a cap on CAM increases, your costs could rise unpredictably each year."⟩
  else if key = "unclear_terms" then some ⟨"Unclear Lease Terms", "Not knowing your renewal deadlines or term length could result in losing your space."⟩
  else if key = "no_assignment" then some ⟨"No Assignment Rights", "Without assignment or sublease rights, you may be stuck with the lease if you need to exit."⟩
  else if key = "no_early_termination" then some ⟨"No Early Termination Option", "Without an early exit clause, you\x27re locked in regardless of business circumstances."⟩
  else if key = "unclear_maintenance" then some ⟨"Unclear Maintenance Responsibilities", "Ambiguous repair obligations can lead to disputes and unexpected costs."⟩
  else if key = "no_rent_abatement" then some ⟨"No Rent Abatement", "If the property is damaged, you could be paying rent while unable to operate."⟩
  else if key = "verbal_promises" then some ⟨"Undocumented Promises", "Verbal promises not in writing are unenforceable and can lead to disputes."⟩
  else if key = "insurance_unknown" then some ⟨"Unknown Insurance Requirements", "Not meeting lease insurance requirements could result in default."⟩
  else if key = "ada_unclear" then some ⟨"ADA Compliance Unclear", "Unclear ADA responsibilities could result in costly modifications or liability."⟩
  else if key = "use_restrictions" then some ⟨"Restrictive Use Clauses", "Use restrictions could limit your ability to adapt your business."⟩
  else if key = "never_reviewed" then some ⟨"Lease Never Reviewed", "A lease that\x27s never been professionally reviewed may contain unfavorable terms."⟩
  else none

/-- The `"acquisition"` sub-dictionary of `RISK_DESCRIPTIONS` (server.py lines 758-777). -/
def acquisition_risks (key : String) : Option RiskInfo :=
  if key = "structure_unclear" then some ⟨"Unclear Deal Structure", "Not understanding asset vs. stock purchase affects liability exposure and tax treatment."⟩
  else if key = "no_diligence" then some ⟨"Inadequate Due Diligence", "Without proper investigation, you may inherit unknown problems, debts, or liabilities."⟩
  else if key = "unreviewed_contracts" then some ⟨"Unreviewed Contracts", "Existing contracts may contain unfavorable terms or change-of-control provisions."⟩
  else if key = "ip_not_documented" then some ⟨"IP Not Documented", "Intellectual property that doesn\x27t transfer properly could undermine your purchase."⟩
  else if key = "litigation_unchecked" then some ⟨"Litigation Not Verified", "Undiscovered legal issues could become your responsibility post-closing."⟩
  else if key = "employee_issues" then some ⟨"Employee Matters Unaddressed", "Unclear employee arrangements can lead to HR problems and compliance issues."⟩
  else if key = "permits_not_verified" then some ⟨"Permits Not Verified", "Non-transferable permits could prevent you from operating the business."⟩
  else if key = "no_reps_warranties" then some ⟨"Missing Representations", "Without seller guarantees, you have no recourse if problems are discovered later."⟩
  else if key = "no_indemnification" then some ⟨"No Indemnification", "Without indemnification, you pay for all of the seller\x27s past problems."⟩
  else if key = "no_escrow" then some ⟨"No Escrow Holdback", "Paying full price at closing leaves no protection for undisclosed liabilities."⟩
  else if key = "no_noncompete" then some ⟨"No Seller Non-Compete", "The seller could start a competing business and take your customers."⟩
  else if key = "no_transition" then some ⟨"No Transition Plan", "Without a formal transition, you risk losing key relationships and knowledge."⟩
  else if key = "no_closing_conditions" then some ⟨"No Closing Conditions", "Unclear closing conditions could lead to disputes or failed transactions."⟩
  else if key = "no_tax_review" then some ⟨"No Tax Professional Review", "Poor structuring could result in significant unexpected tax bills."⟩
  else if key = "environmental_risk" then some ⟨"Environmental Liability Risk", "Uninvestigated environmental issues could result in massive cleanup costs."⟩
  else if key = "financials_unverified" then some ⟨"Unverified Financials", "Relying on seller\x27s numbers without verification is extremely risky."⟩
  else if key = "financing_not_secured" then some ⟨"Financing Not Secured", "Unsecured financing could derail the deal or force unfavorable terms."⟩
  else if key = "no_integration_plan" then some ⟨"No Integration Plan", "Without post-closing planning, the transition could be chaotic and costly."⟩
  else none

/-- The `"ownership"` sub-dictionary of `RISK_DESCRIPTIONS` (server.py lines 778-795). -/
def ownership_risks (key : String) : Option RiskInfo :=
  if key = "no_agreement" then some ⟨"No Written Agreement", "Without a formal agreement, state default rules apply - which may not match your intentions."⟩
  else if key = "verbal_only" then some ⟨"Verbal Understanding Only", "Verbal agreements are difficult to enforce and lead to disputes."⟩
  else if key = "roles_undefined" then some ⟨"Roles Not Defined", "Unclear roles and responsibilities lead to conflicts and inefficiency."⟩
  else if key = "no_voting_process" then some ⟨"No Voting Process", "Without clear decision-making rules, major decisions become contentious."⟩
  else if key = "no_buyout" then some ⟨"No Buyout Provision", "Without exit provisions, partner departures become costly disputes."⟩
  else if key = "no_trigger_events" then some ⟨"Trigger Events Not Addressed", "Death, disability, or divorce without provisions can destabilize the business."⟩
  else if key = "no_valuation" then some ⟨"No Valuation Method", "Disputes over business value can derail buyouts and create expensive litigation."⟩
  else if key = "no_rofr" then some ⟨"No Right of First Refusal", "Owners could sell to outsiders without giving partners a chance to buy."⟩
  else if key = "no_noncompete" then some ⟨"No Non-Compete Protection", "Departing owners could compete directly against the business."⟩
  else if key = "death_not_addressed" then some ⟨"Death Not Addressed", "A deceased owner\x27s interest going to heirs could disrupt business operations."⟩
  else if key = "disability_not_addressed" then some ⟨"Disability Not Addressed", "A disabled owner\x27s situation needs clear provisions for business continuity."⟩
  else if key = "divorce_not_addressed" then some ⟨"Divorce Not Addressed", "Without protection, a divorcing spouse could claim business ownership."⟩
  else if key = "no_deadlock_resolution" then some ⟨"No Deadlock Resolution", "When owners can\x27t agree, without a process the business can become paralyzed."⟩
  else if key = "no_distribution_policy" then some ⟨"No Distribution Policy", "Unclear distribution rules lead to disputes about taking money from the business."⟩
  else if key = "no_indemnification" then some ⟨"No Owner Indemnification", "Without protection, one owner\x27s actions could create liability for all."⟩
  else if key = "never_updated" then some ⟨"Agreement Never Updated", "An outdated agreement may not reflect current operations or ownership."⟩
  else none

/-- `RISK_DESCRIPTIONS` dict-of-dicts lookup (server.py lines 741-796):
`RISK_DESCRIPTIONS.get(module, {})` followed by indexing with `risk_key`;
`none` models both a missing module and a missing key. -/
def RISK_DESCRIPTIONS (module : String) (key : String) : Option RiskInfo :=
  if module = "lease" then lease_risks key
  else if module = "acquisition" then acquisition_risks key
  else if module = "ownership" then ownership_risks key
  else none

/-- `get_risk_key` (server.py lines 877-937): the `mappings` dict lookup,
`None` for unmapped question ids. -/
def get_risk_key (question_id : String) : Option String :=
  if question_id = "lease_1" then some "personal_name"
  else if question_id = "lease_2" then some "unknown_costs"
  else if question_id = "lease_3" then some "personal_guarantee"
  else if question_id = "lease_4" then some "unknown_costs"
  else if question_id = "lease_5" then some "no_cam_cap"
  else if question_id = "lease_6" then some "unclear_terms"
  else if question_id = "lease_7" then some "no_assignment"
  else if question_id = "lease_8" then some "no_early_termination"
  else if question_id = "lease_9" then some "unclear_maintenance"
  else if question_id = "lease_10" then some "no_rent_abatement"
  else if question_id = "lease_11" then some "verbal_promises"
  else if question_id = "lease_13" then some "insurance_unknown"
  else if question_id = "lease_16" then some "ada_unclear"
  else if question_id = "lease_17" then some "use_restrictions"
  else if question_id = "lease_20" then some "never_reviewed"
  else if question_id = "acq_1" then some "structure_unclear"
  else if question_id = "acq_2" then some "no_diligence"
  else if question_id = "acq_3" then some "unreviewed_contracts"
  else if question_id = "acq_4" then some "ip_not_documented"
  else if question_id = "acq_5" then some "litigation_unchecked"
  else if question_id = "acq_6" then some "employee_issues"
  else if question_id = "acq_7" then some "permits_not_verified"
  else if question_id = "acq_8" then some "no_reps_warranties"
  else if question_id = "acq_9" then some "no_indemnification"
  else if question_id = "acq_10" then some "no_escrow"
  else if question_id = "acq_11" then some "no_noncompete"
  else if question_id = "acq_12" then some "no_transition"
  else if question_id = "acq_13" then some "no_closing_conditions"
  else if question_id = "acq_14" then some "no_tax_review"
  else if question_id = "acq_15" then some "environmental_risk"
  else if question_id = "acq_16" then some "unreviewed_contracts"
  else if question_id = "acq_17" then some "financials_unverified"
  else if question_id = "acq_18" then some "financing_not_secured"
  else if question_id = "acq_19" then some "unreviewed_contracts"
  else if question_id = "acq_20" then some "no_integration_plan"
  else if question_id = "own_1" then some "no_agreement"
  else if question_id = "own_2" then some "verbal_only"
  else if question_id = "own_3" then some "roles_undefined"
  else if question_id = "own_4" then some "no_voting_process"
  else if question_id = "own_5" then some "no_buyout"
  else if question_id = "own_6" then some "no_trigger_events"
  else if question_id = "own_7" then some "no_valuation"
  else if question_id = "own_8" then some "no_rofr"
  else if question_id = "own_9" then some "no_noncompete"
  else if question_id = "own_10" then some "death_not_addressed"
  else if question_id = "own_11" then some "disability_not_addressed"
  else if question_id = "own_12" then some "divorce_not_addressed"
  else if question_id = "own_13" then some "no_deadlock_resolution"
  else if question_id = "own_14" then some "no_distribution_policy"
  else if question_id = "own_15" then some "no_agreement"
  else if question_id = "own_16" then some "no_indemnification"
  else if question_id = "own_20" then some "never_updated"
  else none

/-- `question_id.split("_")[0]` (server.py line 842): the text before the
first underscore (the whole string when there is none), realized as the
longest underscore-free prefix of the string, which is what the first
element of Python's `split("_")` is. -/
def module_token (question_id : String) : String :=
  String.mk (question_id.toList.takeWhile (fun c => c ≠ '_'))

/-- The module normalization of server.py lines 843-846:
`"acq"` becomes `"acquisition"`, `"own"` becomes `"ownership"`. -/
def normalize_module (m : String) : String :=
  if m = "acq" then "acquisition" else if m = "own" then "ownership" else m

/-- `total_score = sum(a.points for a in answers)` (server.py line 801). -/
def total_score_of (answers : List AssessmentAnswer) : Int :=
  (answers.map (fun a => a.points)).sum

/-- `max_score = len(modules) * 60` (server.py line 804). -/
def max_score_of (modules : List String) : Int :=
  (modules.length : Int) * 60

/-- The `trigger_flags` list (server.py lines 807-810): question ids of the
answers whose `trigger_flag` is true, in submission order. -/
def trigger_flags_of (answers : List AssessmentAnswer) : List String :=
  (answers.filter (fun a => a.trigger_flag)).map (fun a => a.question_id)

/-- `score_percentage = (total_score / max_score * 100) if max_score > 0 else 0`
(server.py line 813), exact over `ℚ`. -/
def score_percentage_of (answers : List AssessmentAnswer) (modules : List String) : ℚ :=
  if 0 < max_score_of modules then
    (total_score_of answers : ℚ) / (max_score_of modules : ℚ) * 100
  else 0

/-- `avg_score_per_module = total_score / len(modules) if modules else 0`
(server.py line 819), exact over `ℚ`. -/
def avg_score_per_module_of (answers : List AssessmentAnswer) (modules : List String) : ℚ :=
  if modules ≠ [] then (total_score_of answers : ℚ) / (modules.length : ℚ) else 0

/-- The threshold classification of server.py lines 821-826:
average per-module score at least 50 is green, at least 35 yellow, else red. -/
def base_risk_level (answers : List AssessmentAnswer) (modules : List String) : String :=
  if 50 ≤ avg_score_per_module_of answers modules then "green"
  else if 35 ≤ avg_score_per_module_of answers modules then "yellow"
  else "red"

/-- The trigger-flag overrides of server.py lines 828-832: at least 3 flags
turn green into yellow, at least 5 flags force red. -/
def apply_flag_override (flag_count : Nat) (risk_level : String) : String :=
  let lvl := if 3 ≤ flag_count ∧ risk_level = "green" then "yellow" else risk_level
  if 5 ≤ flag_count then "red" else lvl

/-- The `risk_level` value after thresholds and overrides (server.py lines 815-832). -/
def risk_level_of (answers : List AssessmentAnswer) (modules : List String) : String :=
  apply_flag_override (trigger_flags_of answers).length (base_risk_level answers modules)

/-- Stable insertion into a list sorted by `points`: the new element goes
after every element whose `points` is less than or equal to its own. -/
def insert_by_points (a : AssessmentAnswer) : List AssessmentAnswer → List AssessmentAnswer
  | [] => [a]
  | b :: bs => if b.points ≤ a.points then b :: insert_by_points a bs else a :: b :: bs

/-- `sorted_answers = sorted(answers, key=lambda x: x.points)`
(server.py line 837): the stable sort by ascending `points`, realized as a
stable insertion sort (the output of a stable sort by a key is unique). -/
def sorted_answers_of (answers : List AssessmentAnswer) : List AssessmentAnswer :=
  answers.foldl (fun acc a => insert_by_points a acc) []

/-- The body of the top-risks loop (server.py lines 840-857): answers worth
at most 2 points are resolved through `get_risk_key` and the risk catalog;
resolution failures yield nothing. Severity is `"high"` for 1-point answers
and `"medium"` otherwise. -/
def risk_entry (a : AssessmentAnswer) : Option TopRisk :=
  if a.points ≤ 2 then
    match get_risk_key a.question_id with
    | none => none
    | some key =>
      match RISK_DESCRIPTIONS (normalize_module (module_token a.question_id)) key with
      | none => none
      | some info =>
        some { title := info.title
               description := info.description
               severity := if a.points = 1 then "high" else "medium"
               module := normalize_module (module_token a.question_id) }
  else none

/-- The `top_risks` list (server.py lines 834-857): iterate over the first 7
answers sorted by ascending points and keep the resolvable ones. -/
def top_risks_of (answers : List AssessmentAnswer) : List TopRisk :=
  ((sorted_answers_of answers).take 7).filterMap risk_entry

/-- First loop of `generate_action_plan` (server.py lines 944-953): one
`"Address"` item per high-severity risk, threading the priority counter.
Returns the items and the counter value after the loop. -/
def address_items : List TopRisk → Nat → List ActionItem × Nat
  | [], p => ([], p)
  | r :: rs, p =>
    if r.severity = "high" then
      let rest := address_items rs (p + 1)
      ({ priority := p
         action := "Address: " ++ r.title
         description := r.description
         urgency := "high" } :: rest.1, rest.2)
    else address_items rs p

/-- Second loop of `generate_action_plan` (server.py lines 955-964): one
`"Review"` item per medium-severity risk while the priority counter is at
most 5. Returns the items and the counter value after the loop. -/
def review_items : List TopRisk → Nat → List ActionItem × Nat
  | [], p => ([], p)
  | r :: rs, p =>
    if r.severity = "medium" ∧ p ≤ 5 then
      let rest := review_items rs (p + 1)
      ({ priority := p
         action := "Review: " ++ r.title
         description := r.description
         urgency := "medium" } :: rest.1, rest.2)
    else review_items rs p

/-- Trailing review-call item of `generate_action_plan` (server.py lines
966-973), appended exactly when the risk level is yellow or red. -/
def review_call_items (risk_level : String) (p : Nat) : List ActionItem :=
  if risk_level = "yellow" ∨ risk_level = "red" then
    [{ priority := p
       action := "Schedule a CLBH Review Call"
       description := "A 30-minute call to discuss your specific situation and create a protection plan."
       urgency := if risk_level = "red" then "high" else "medium" }]
  else []

/-- `generate_action_plan` (server.py lines 939-975). The `modules` argument
is accepted and unused, as in the source. -/
def generate_action_plan (top_risks : List TopRisk) (risk_level : String)
    (modules : List String) : List ActionItem :=
  (address_items top_risks 1).1
    ++ (review_items top_risks (address_items top_risks 1).2).1
    ++ review_call_items risk_level (review_items top_risks (address_items top_risks 1).2).2

/-- Python `int(x)` on the percentage (server.py line 864): truncation
toward zero. -/
def pyInt (q : ℚ) : Int :=
  if 0 ≤ q then ⌊q⌋ else -⌊-q⌋

/-- `confidence = int(score_percentage) - (len(trigger_flags) * 5)`
(server.py line 864), before clamping. -/
def confidence_of (answers : List AssessmentAnswer) (modules : List String) : Int :=
  pyInt (score_percentage_of answers modules) - ((trigger_flags_of answers).length : Int) * 5

/-- Round-half-to-even to an integer, the rounding mode of Python `round`. -/
def roundHalfEven (q : ℚ) : Int :=
  if q - (⌊q⌋ : ℚ) < 1/2 then ⌊q⌋
  else if (1:ℚ)/2 < q - (⌊q⌋ : ℚ) then ⌊q⌋ + 1
  else if ⌊q⌋ % 2 = 0 then ⌊q⌋ else ⌊q⌋ + 1

/-- Python `round(x, 1)` (server.py line 869): round to one decimal place,
ties to even. -/
def pyRound1 (q : ℚ) : ℚ :=
  (roundHalfEven (10 * q) : ℚ) / 10

/-- `calculate_score_and_risks` (server.py lines 800-875), assembled from
the block-level definitions above in source order. -/
def calculate_score_and_risks (answers : List AssessmentAnswer)
    (modules : List String) : ScoreResult :=
  { total_score := total_score_of answers
    max_possible_score := max_score_of modules
    score_percentage := pyRound1 (score_percentage_of answers modules)
    risk_level := risk_level_of answers modules
    trigger_flags := trigger_flags_of answers
    top_risks := top_risks_of answers
    action_plan := generate_action_plan (top_risks_of answers)
      (risk_level_of answers modules) modules
    confidence_level := min 100 (max 10 (confidence_of answers modules)) }

/-- The severity order of risk tiers stated by the spec:
green (0) < yellow (1) < red (2); any other label counts as worst. -/
def severityRank (level : String) : Nat :=
  if level = "green" then 0 else if level = "yellow" then 1 else 2

/-- Modelled from the spec: the per-module/area aggregate score named by
spec section 4.3 item 1 ("any module/area whose own aggregate score falls in
the worst tier").  The code computes no per-area aggregate; this definition
follows the spec words: the sum of the submitted points of the answers
belonging to the area, the area of an answer being derived from its question
id exactly as the code derives it. -/
def area_score (m : String) (answers : List AssessmentAnswer) : Int :=
  ((answers.filter (fun a => normalize_module (module_token a.question_id) = m)).map
    (fun a => a.points)).sum

/-! ## Library lemmas about the embedded operations -/

theorem mem_insert_by_points {x a : AssessmentAnswer} {l : List AssessmentAnswer} :
    x ∈ insert_by_points a l ↔ x = a ∨ x ∈ l := by
  induction l with
  | nil => simp [insert_by_points]
  | cons b bs ih =>
    by_cases hba : b.points ≤ a.points
    · simp only [insert_by_points, if_pos hba, List.mem_cons, ih]
      tauto
    · simp only [insert_by_points, if_neg hba, List.mem_cons]

theorem pairwise_insert_by_points (a : AssessmentAnswer) (l : List AssessmentAnswer)
    (h : List.Pairwise (fun x y => x.points ≤ y.points) l) :
    List.Pairwise (fun x y => x.points ≤ y.points) (insert_by_points a l) := by
  induction l with
  | nil => simp [insert_by_points]
  | cons b bs ih =>
    rw [List.pairwise_cons] at h
    obtain ⟨hb, hbs⟩ := h
    by_cases hba : b.points ≤ a.points
    · simp only [insert_by_points, if_pos hba]
      rw [List.pairwise_cons]
      refine ⟨fun x hx => ?_, ih hbs⟩
      rcases mem_insert_by_points.1 hx with rfl | hx
      · exact hba
      · exact hb x hx
    · simp only [insert_by_points, if_neg hba]
      rw [List.pairwise_cons]
      refine ⟨fun x hx => ?_, List.Pairwise.cons hb hbs⟩
      rcases List.mem_cons.1 hx with rfl | hx
      · exact le_of_not_le hba
      · exact le_trans (le_of_not_le hba) (hb x hx)

theorem pairwise_sorted_answers_aux (l acc : List AssessmentAnswer)
    (h : List.Pairwise (fun x y => x.points ≤ y.points) acc) :
    List.Pairwise (fun x y => x.points ≤ y.points)
      (l.foldl (fun acc a => insert_by_points a acc) acc) := by
  induction l generalizing acc with
  | nil => simpa using h
  | cons a as ih => exact ih _ (pairwise_insert_by_points a acc h)

theorem pairwise_sorted_answers (answers : List AssessmentAnswer) :
    List.Pairwise (fun x y => x.points ≤ y.points) (sorted_answers_of answers) :=
  pairwise_sorted_answers_aux answers [] (by simp)

theorem mem_sorted_answers_aux (l : List AssessmentAnswer) (acc : List AssessmentAnswer)
    (x : AssessmentAnswer) :
    x ∈ l.foldl (fun acc a => insert_by_points a acc) acc ↔ x ∈ acc ∨ x ∈ l := by
  induction l generalizing acc with
  | nil => simp
  | cons a as ih =>
    simp only [List.foldl_cons, ih, mem_insert_by_points, List.mem_cons]
    tauto

theorem mem_sorted_answers {answers : List AssessmentAnswer} {x : AssessmentAnswer} :
    x ∈ sorted_answers_of answers ↔ x ∈ answers := by
  unfold sorted_answers_of
  rw [mem_sorted_answers_aux]
  simp

theorem address_items_snd (tr : List TopRisk) (p : Nat) :
    (address_items tr p).2 = p + (address_items tr p).1.length := by
  induction tr generalizing p with
  | nil => simp [address_items]
  | cons r rs ih =>
    by_cases h : r.severity = "high"
    · simp only [address_items, if_pos h, List.length_cons]
      rw [ih (p + 1)]
      omega
    · simp only [address_items, if_neg h]
      exact ih p

theorem review_items_snd (tr : List TopRisk) (p : Nat) :
    (review_items tr p).2 = p + (review_items tr p).1.length := by
  induction tr generalizing p with
  | nil => simp [review_items]
  | cons r rs ih =>
    by_cases h : r.severity = "medium" ∧ p ≤ 5
    · simp only [review_items, if_pos h, List.length_cons]
      rw [ih (p + 1)]
      omega
    · simp only [review_items, if_neg h]
      exact ih p

theorem address_items_map_priority (tr : List TopRisk) (p : Nat) :
    (address_items tr p).1.map (fun i => i.priority)
      = List.range' p (address_items tr p).1.length := by
  induction tr generalizing p with
  | nil => simp [address_items]
  | cons r rs ih =>
    by_cases h : r.severity = "high"
    · simp only [address_items, if_pos h, List.map_cons, List.length_cons, List.range'_succ, ih]
    · simp only [address_items, if_neg h, ih]

theorem review_items_map_priority (tr : List TopRisk) (p : Nat) :
    (review_items tr p).1.map (fun i => i.priority)
      = List.range' p (review_items tr p).1.length := by
  induction tr generalizing p with
  | nil => simp [review_items]
  | cons r rs ih =>
    by_cases h : r.severity = "medium" ∧ p ≤ 5
    · simp only [review_items, if_pos h, List.map_cons, List.length_cons, List.range'_succ, ih]
    · simp only [review_items, if_neg h, ih]

theorem review_call_map_priority (lvl : String) (p : Nat) :
    (review_call_items lvl p).map (fun i => i.priority)
      = List.range' p (review_call_items lvl p).length := by
  unfold review_call_items
  split <;> simp [List.range']

theorem mem_address_items {tr : List TopRisk} {p : Nat} {item : ActionItem}
    (h : item ∈ (address_items tr p).1) :
    item.urgency = "high"
      ∧ ∃ r ∈ tr, r.severity = "high" ∧ item.action = "Address: " ++ r.title := by
  induction tr generalizing p with
  | nil => simp [address_items] at h
  | cons r rs ih =>
    by_cases hs : r.severity = "high"
    · simp only [address_items, if_pos hs, List.mem_cons] at h
      rcases h with rfl | h
      · exact ⟨rfl, r, List.mem_cons_self r rs, hs, rfl⟩
      · obtain ⟨hu, r', hr', hs', ha'⟩ := ih h
        exact ⟨hu, r', List.mem_cons_of_mem _ hr', hs', ha'⟩
    · simp only [address_items, if_neg hs] at h
      obtain ⟨hu, r', hr', hs', ha'⟩ := ih h
      exact ⟨hu, r', List.mem_cons_of_mem _ hr', hs', ha'⟩

theorem mem_review_items {tr : List TopRisk} {p : Nat} {item : ActionItem}
    (h : item ∈ (review_items tr p).1) :
    item.urgency = "medium"
      ∧ ∃ r ∈ tr, r.severity = "medium" ∧ item.action = "Review: " ++ r.title := by
  induction tr generalizing p with
  | nil => simp [review_items] at h
  | cons r rs ih =>
    by_cases hs : r.severity = "medium" ∧ p ≤ 5
    · simp only [review_items, if_pos hs, List.mem_cons] at h
      rcases h with rfl | h
      · exact ⟨rfl, r, List.mem_cons_self r rs, hs.1, rfl⟩
      · obtain ⟨hu, r', hr', hs', ha'⟩ := ih h
        exact ⟨hu, r', List.mem_cons_of_mem _ hr', hs', ha'⟩
    · simp only [review_items, if_neg hs] at h
      obtain ⟨hu, r', hr', hs', ha'⟩ := ih h
      exact ⟨hu, r', List.mem_cons_of_mem _ hr', hs', ha'⟩

theorem address_review_length_le (tr : List TopRisk) (p q : Nat) :
    (address_items tr p).1.length + (review_items tr q).1.length ≤ tr.length := by
  induction tr generalizing p q with
  | nil => simp [address_items, review_items]
  | cons r rs ih =>
    by_cases hs : r.severity = "high"
    · have hm : ¬(r.severity = "medium" ∧ q ≤ 5) := by simp [hs]
      simp only [address_items, review_items, if_pos hs, if_neg hm, List.length_cons]
      have := ih (p + 1) q
      omega
    · by_cases hm : r.severity = "medium" ∧ q ≤ 5
      · simp only [address_items, review_items, if_neg hs, if_pos hm, List.length_cons]
        have := ih p (q + 1)
        omega
      · simp only [address_items, review_items, if_neg hs, if_neg hm, List.length_cons]
        have := ih p q
        omega

theorem total_score_cons (a : AssessmentAnswer) (l : List AssessmentAnswer) :
    total_score_of (a :: l) = a.points + total_score_of l := by
  simp [total_score_of]

theorem total_score_set (l : List AssessmentAnswer) (i : Nat) (h : i < l.length)
    (b : AssessmentAnswer) :
    total_score_of (l.set i b) = total_score_of l - (l.get ⟨i, h⟩).points + b.points := by
  induction l generalizing i with
  | nil => simp at h
  | cons x xs ih =>
    cases i with
    | zero =>
      simp only [List.set_cons_zero, total_score_cons, List.get]
      ring
    | succ n =>
      have hn : n < xs.length := by simpa using h
      simp only [List.set_cons_succ, total_score_cons, ih n hn, List.get]
      ring

theorem trigger_flags_cons (a : AssessmentAnswer) (l : List AssessmentAnswer) :
    trigger_flags_of (a :: l)
      = if a.trigger_flag then a.question_id :: trigger_flags_of l else trigger_flags_of l := by
  simp only [trigger_flags_of, List.filter_cons]
  by_cases hf : a.trigger_flag <;> simp [hf]

theorem trigger_flags_set (l : List AssessmentAnswer) (i : Nat) (h : i < l.length) (p : Int) :
    trigger_flags_of (l.set i { l.get ⟨i, h⟩ with points := p }) = trigger_flags_of l := by
  induction l generalizing i with
  | nil => simp at h
  | cons x xs ih =>
    cases i with
    | zero =>
      simp only [List.set_cons_zero, List.get, trigger_flags_cons]
    | succ n =>
      have hn : n < xs.length := by simpa using h
      simp only [List.set_cons_succ, List.get, trigger_flags_cons, ih n hn]

theorem avg_score_mono {answers answers' : List AssessmentAnswer} (modules : List String)
    (ht : total_score_of answers' ≤ total_score_of answers) :
    avg_score_per_module_of answers' modules ≤ avg_score_per_module_of answers modules := by
  unfold avg_score_per_module_of
  by_cases hne : modules ≠ []
  · simp only [if_pos hne]
    have hL : (0:ℚ) < (modules.length : ℚ) := by
      have := List.length_pos.2 hne
      exact_mod_cast this
    exact (div_le_div_iff_of_pos_right hL).2 (by exact_mod_cast ht)
  · simp [hne]

theorem severityRank_ge_one_of_ne_green {s : String} (h : s ≠ "green") :
    1 ≤ severityRank s := by
  unfold severityRank
  rw [if_neg h]
  split <;> omega

theorem base_rank_mono {answers answers' : List AssessmentAnswer} {modules : List String}
    (h : avg_score_per_module_of answers' modules ≤ avg_score_per_module_of answers modules) :
    severityRank (base_risk_level answers modules)
      ≤ severityRank (base_risk_level answers' modules) := by
  unfold base_risk_level
  split_ifs <;> simp_all [severityRank] <;> linarith

theorem override_rank_mono (c : Nat) {b b' : String}
    (h : severityRank b ≤ severityRank b') :
    severityRank (apply_flag_override c b) ≤ severityRank (apply_flag_override c b') := by
  unfold apply_flag_override
  have hyk : severityRank "yellow" = 1 := by simp [severityRank]
  by_cases h5 : 5 ≤ c
  · simp [h5]
  · simp only [if_neg h5]
    by_cases h3 : 3 ≤ c
    · by_cases hb : b = "green"
      · by_cases hb' : b' = "green"
        · simp [hb, hb', h3]
        · have h1 : 1 ≤ severityRank b' := severityRank_ge_one_of_ne_green hb'
          simp only [if_pos (And.intro h3 hb),
            if_neg (fun hc : 3 ≤ c ∧ b' = "green" => hb' hc.2)]
          omega
      · have h1 : 1 ≤ severityRank b := severityRank_ge_one_of_ne_green hb
        simp only [if_neg (fun hc : 3 ≤ c ∧ b = "green" => hb hc.2)]
        by_cases hb' : b' = "green"
        · have h0 : severityRank b' = 0 := by simp [severityRank, hb']
          simp only [if_pos (And.intro h3 hb')]
          omega
        · simp only [if_neg (fun hc : 3 ≤ c ∧ b' = "green" => hb' hc.2)]
          exact h
    · have hnb : ¬(3 ≤ c ∧ b = "green") := fun hc => h3 hc.1
      have hnb' : ¬(3 ≤ c ∧ b' = "green") := fun hc => h3 hc.1
      simp only [if_neg hnb, if_neg hnb']
      exact h

theorem risk_rank_mono {answers answers' : List AssessmentAnswer} {modules : List String}
    (ht : total_score_of answers' ≤ total_score_of answers)
    (hf : trigger_flags_of answers' = trigger_flags_of answers) :
    severityRank (risk_level_of answers modules)
      ≤ severityRank (risk_level_of answers' modules) := by
  unfold risk_level_of
  rw [hf]
  exact override_rank_mono _ (base_rank_mono (avg_score_mono modules ht))

theorem pairwise_filterMap_of_pairwise {α β : Type} (f : α → Option β)
    {P : α → α → Prop} {Q : β → β → Prop} {l : List α}
    (hl : List.Pairwise P l)
    (H : ∀ a b, a ∈ l → b ∈ l → P a b → ∀ r s, f a = some r → f b = some s → Q r s) :
    List.Pairwise Q (l.filterMap f) := by
  induction l with
  | nil => simp
  | cons a as ih =>
    rw [List.pairwise_cons] at hl
    obtain ⟨ha, has⟩ := hl
    rw [List.filterMap_cons]
    cases hfa : f a with
    | none =>
      exact ih has (fun x y hx hy =>
        H x y (List.mem_cons_of_mem _ hx) (List.mem_cons_of_mem _ hy))
    | some r =>
      rw [List.pairwise_cons]
      refine ⟨fun s hs => ?_, ih has (fun x y hx hy =>
        H x y (List.mem_cons_of_mem _ hx) (List.mem_cons_of_mem _ hy))⟩
      obtain ⟨b, hb, hfb⟩ := List.mem_filterMap.1 hs
      exact H a b (List.mem_cons_self a as) (List.mem_cons_of_mem _ hb) (ha b hb) r s hfa hfb

theorem severity_of_risk_entry {a : AssessmentAnswer} {r : TopRisk}
    (h : risk_entry a = some r) :
    a.points ≤ 2 ∧ r.severity = (if a.points = 1 then "high" else "medium") := by
  unfold risk_entry at h
  split at h
  · refine ⟨by assumption, ?_⟩
    split at h
    · exact absurd h (by simp)
    · split at h
      · exact absurd h (by simp)
      · rw [Option.some_inj] at h
        rw [← h]
  · exact absurd h (by simp)

theorem range_one_append (s m n : Nat) :
    List.range' s m ++ List.range' (s + m) n = List.range' s (m + n) := by
  rw [Nat.add_comm m n]
  simpa using List.range'_append s m n 1

theorem plan_map_priority (tr : List TopRisk) (lvl : String) (modules : List String) :
    (generate_action_plan tr lvl modules).map (fun i => i.priority)
      = List.range' 1 (generate_action_plan tr lvl modules).length := by
  unfold generate_action_plan
  simp only [List.map_append, List.length_append]
  rw [address_items_map_priority, review_items_map_priority, review_call_map_priority,
    address_items_snd, review_items_snd]
  generalize (address_items tr 1).1.length = A
  generalize (review_items tr (1 + A)).1.length = B
  generalize (review_call_items lvl (1 + A + B)).length = C
  rw [range_one_append, Nat.add_assoc 1 A B, range_one_append]

theorem risk_level_red_of_five (answers : List AssessmentAnswer) (modules : List String)
    (h5 : 5 ≤ (trigger_flags_of answers).length) :
    risk_level_of answers modules = "red" := by
  unfold risk_level_of apply_flag_override
  simp [h5]

theorem risk_level_ne_green_of_three (answers : List AssessmentAnswer) (modules : List String)
    (h3 : 3 ≤ (trigger_flags_of answers).length) :
    risk_level_of answers modules ≠ "green" := by
  unfold risk_level_of apply_flag_override
  by_cases h5 : 5 ≤ (trigger_flags_of answers).length
  · simp [h5]
  · simp only [if_neg h5]
    split
    · decide
    · next hneg => exact fun heq => hneg ⟨h3, heq⟩

theorem trigger_flags_length (answers : List AssessmentAnswer) :
    (trigger_flags_of answers).length
      = (answers.filter (fun a => a.trigger_flag)).length := by
  simp [trigger_flags_of]

/-! ## Claim theorems -/

/-- C4: for every list of submitted answers and every module list, the
returned `total_score` equals the sum of the `points` field over the
submitted answers, and it is 0 for the empty answer list. -/
theorem c4_total_score_is_sum (answers : List AssessmentAnswer) (modules : List String) :
    (calculate_score_and_risks answers modules).total_score
      = (answers.map (fun a => a.points)).sum
    ∧ (calculate_score_and_risks [] modules).total_score = 0 :=
  ⟨rfl, rfl⟩

/-- C2: for every input to the scoring engine, at least 3 submitted answers
with `trigger_flag` true force the returned `risk_level` away from
`"green"`, and at least 5 force it to `"red"`, independently of the score
percentage. -/
theorem c2_flagged_count_override (answers : List AssessmentAnswer) (modules : List String) :
    (3 ≤ (answers.filter (fun a => a.trigger_flag)).length →
      (calculate_score_and_risks answers modules).risk_level ≠ "green")
    ∧ (5 ≤ (answers.filter (fun a => a.trigger_flag)).length →
      (calculate_score_and_risks answers modules).risk_level = "red") := by
  constructor
  · intro h3
    exact risk_level_ne_green_of_three answers modules
      (by rw [trigger_flags_length]; exact h3)
  · intro h5
    exact risk_level_red_of_five answers modules
      (by rw [trigger_flags_length]; exact h5)

/-- Witness for C2 at a concrete input: five flagged answers out of five. -/
def c2_witness_answers : List AssessmentAnswer :=
  [⟨"lease_1", "red", 1, true⟩, ⟨"lease_3", "red", 1, true⟩, ⟨"lease_5", "red", 1, true⟩,
   ⟨"lease_6", "red", 1, true⟩, ⟨"lease_7", "red", 1, true⟩]

/-- C2 witness: at five flagged answers the tier is not green and is red. -/
theorem c2_flagged_count_override_witness :
    (calculate_score_and_risks c2_witness_answers ["lease"]).risk_level ≠ "green"
    ∧ (calculate_score_and_risks c2_witness_answers ["lease"]).risk_level = "red" :=
  ⟨(c2_flagged_count_override c2_witness_answers ["lease"]).1 (by decide),
   (c2_flagged_count_override c2_witness_answers ["lease"]).2 (by decide)⟩

/-- C8: for every input, `confidence_level` equals the clamp to [10, 100] of
the integer part of the (exact, unrounded) score percentage minus 5 times
the number of flagged answers; in particular it always lies between 10 and
100 inclusive. -/
theorem c8_confidence_formula (answers : List AssessmentAnswer) (modules : List String) :
    (calculate_score_and_risks answers modules).confidence_level
      = min 100 (max 10 (pyInt (score_percentage_of answers modules)
          - ((answers.filter (fun a => a.trigger_flag)).length : Int) * 5))
    ∧ 10 ≤ (calculate_score_and_risks answers modules).confidence_level
    ∧ (calculate_score_and_risks answers modules).confidence_level ≤ 100 := by
  refine ⟨?_, ?_, ?_⟩
  · show min 100 (max 10 (confidence_of answers modules)) = _
    unfold confidence_of
    rw [trigger_flags_length]
  · exact le_min (by norm_num) (le_max_left _ _)
  · exact min_le_left _ _

/-- C9: for every input, the `priority` fields of the returned action plan,
read in list order, are exactly 1, 2, ..., n where n is the plan length. -/
theorem c9_priorities_contiguous (answers : List AssessmentAnswer) (modules : List String) :
    ((calculate_score_and_risks answers modules).action_plan.map (fun i => i.priority))
      = List.range' 1 ((calculate_score_and_risks answers modules).action_plan.length) :=
  plan_map_priority (top_risks_of answers) (risk_level_of answers modules) modules

/-- C1: the risk tier is monotonic in badness: strictly lowering the point
value of any single submitted answer, holding every other field, every
other answer and the module list fixed, never moves the returned
`risk_level` to a less severe tier in the order green < yellow < red. -/
theorem c1_risk_tier_monotonic (answers : List AssessmentAnswer) (modules : List String)
    (i : Nat) (hi : i < answers.length) (p : Int)
    (hp : p < (answers.get ⟨i, hi⟩).points) :
    severityRank (calculate_score_and_risks answers modules).risk_level
      ≤ severityRank (calculate_score_and_risks
          (answers.set i { answers.get ⟨i, hi⟩ with points := p }) modules).risk_level := by
  have ht : total_score_of (answers.set i { answers.get ⟨i, hi⟩ with points := p })
      ≤ total_score_of answers := by
    rw [total_score_set answers i hi]
    have hq : ({ answers.get ⟨i, hi⟩ with points := p } : AssessmentAnswer).points = p := rfl
    rw [hq]
    omega
  have hf := trigger_flags_set answers i hi p
  exact risk_rank_mono ht hf

/-- C1 witness: lowering a 3-point answer to 1 point at a concrete input. -/
theorem c1_risk_tier_monotonic_witness :
    severityRank (calculate_score_and_risks
        [⟨"lease_1", "green", 3, false⟩] ["lease"]).risk_level
      ≤ severityRank (calculate_score_and_risks
          (([⟨"lease_1", "green", 3, false⟩] : List AssessmentAnswer).set 0
            { ([⟨"lease_1", "green", 3, false⟩] : List AssessmentAnswer).get
                ⟨0, by decide⟩ with points := 1 }) ["lease"]).risk_level :=
  c1_risk_tier_monotonic [⟨"lease_1", "green", 3, false⟩] ["lease"] 0 (by decide) 1 (by decide)

/-- C3 (amended): for every input, `top_risks` has length at most 7 and
`action_plan` has length at most 8 (the bound 7 claimed by the spec fails:
seven high-severity risks plus the trailing review-call item give 8). -/
theorem c3_bounded_outputs (answers : List AssessmentAnswer) (modules : List String) :
    (calculate_score_and_risks answers modules).top_risks.length ≤ 7
    ∧ (calculate_score_and_risks answers modules).action_plan.length ≤ 8 := by
  have htop : (top_risks_of answers).length ≤ 7 := by
    unfold top_risks_of
    exact le_trans (List.length_filterMap_le _ _) (List.length_take_le 7 _)
  refine ⟨htop, ?_⟩
  show (generate_action_plan (top_risks_of answers)
      (risk_level_of answers modules) modules).length ≤ 8
  unfold generate_action_plan
  simp only [List.length_append]
  have h1 := address_review_length_le (top_risks_of answers) 1
    (address_items (top_risks_of answers) 1).2
  have h2 : (review_call_items (risk_level_of answers modules)
      (review_items (top_risks_of answers)
        (address_items (top_risks_of answers) 1).2).2).length ≤ 1 := by
    unfold review_call_items
    split <;> simp
  omega

/-- Input for the C3 counterexample: seven resolvable 1-point answers. -/
def c3_cex_answers : List AssessmentAnswer :=
  [⟨"lease_1", "red", 1, false⟩, ⟨"lease_3", "red", 1, false⟩, ⟨"lease_5", "red", 1, false⟩,
   ⟨"lease_6", "red", 1, false⟩, ⟨"lease_7", "red", 1, false⟩, ⟨"lease_8", "red", 1, false⟩,
   ⟨"lease_9", "red", 1, false⟩]

/-- C3 counterexample: with seven resolvable 1-point answers in a single
module the returned action plan has 8 entries (seven high-severity items
plus the review-call item), violating the claimed bound of 7. -/
theorem c3_action_plan_exceeds_seven :
    (calculate_score_and_risks c3_cex_answers ["lease"]).action_plan.length = 8 := by
  have htot : total_score_of c3_cex_answers = 7 := by decide
  have hfl : (trigger_flags_of c3_cex_answers).length = 0 := by decide
  have hr : risk_level_of c3_cex_answers ["lease"] = "red" := by
    unfold risk_level_of apply_flag_override base_risk_level avg_score_per_module_of
    rw [htot, hfl]
    norm_num
  show (generate_action_plan (top_risks_of c3_cex_answers)
      (risk_level_of c3_cex_answers ["lease"]) ["lease"]).length = 8
  rw [hr]
  decide

/-- C5 (amended): for every input, `max_possible_score` is 60 times the
number of selected modules, and the returned `score_percentage` is
total/max × 100 rounded to one decimal place (0 when the module list is
empty), not the exact quotient the claim states. -/
theorem c5_max_score_and_rounded_percentage (answers : List AssessmentAnswer)
    (modules : List String) :
    (calculate_score_and_risks answers modules).max_possible_score
      = 60 * (modules.length : Int)
    ∧ (calculate_score_and_risks answers modules).score_percentage
      = pyRound1 (if 0 < max_score_of modules
          then ((calculate_score_and_risks answers modules).total_score : ℚ)
            / ((calculate_score_and_risks answers modules).max_possible_score : ℚ) * 100
          else 0) := by
  constructor
  · show max_score_of modules = 60 * (modules.length : Int)
    unfold max_score_of
    ring
  · rfl

/-- Input for the C5 counterexample: a single 1-point answer. -/
def c5_cex_answers : List AssessmentAnswer := [⟨"lease_1", "red", 1, true⟩]

/-- C5 counterexample: at one 1-point answer in one module the exact
percentage is 100/60 = 5/3 but the returned `score_percentage` is the
rounded 1.7, so the claimed equality with total/max × 100 fails. -/
theorem c5_percentage_rounding_counterexample :
    (calculate_score_and_risks c5_cex_answers ["lease"]).score_percentage
      ≠ ((calculate_score_and_risks c5_cex_answers ["lease"]).total_score : ℚ)
        / ((calculate_score_and_risks c5_cex_answers ["lease"]).max_possible_score : ℚ)
        * 100 := by
  have h1 : score_percentage_of c5_cex_answers ["lease"] = 5/3 := by
    unfold score_percentage_of max_score_of total_score_of c5_cex_answers
    norm_num
  have h2 : (calculate_score_and_risks c5_cex_answers ["lease"]).score_percentage = 17/10 := by
    show pyRound1 (score_percentage_of c5_cex_answers ["lease"]) = 17/10
    rw [h1]
    unfold pyRound1 roundHalfEven
    norm_num
  have h3 : ((calculate_score_and_risks c5_cex_answers ["lease"]).total_score : ℚ)
      / ((calculate_score_and_risks c5_cex_answers ["lease"]).max_possible_score : ℚ)
      * 100 = 5/3 := by
    show (total_score_of c5_cex_answers : ℚ) / (max_score_of ["lease"] : ℚ) * 100 = 5/3
    unfold max_score_of total_score_of c5_cex_answers
    norm_num
  rw [h2, h3]
  norm_num

theorem address_items_actions (tr : List TopRisk) (p : Nat) :
    (address_items tr p).1.map (fun i => i.action)
      = (tr.filter (fun r => r.severity = "high")).map
          (fun r => "Address: " ++ r.title) := by
  induction tr generalizing p with
  | nil => simp [address_items]
  | cons r rs ih =>
    by_cases hs : r.severity = "high" <;>
      simp [address_items, List.filter_cons, hs, ih]

theorem review_items_actions (tr : List TopRisk) (p : Nat) :
    (review_items tr p).1.map (fun i => i.action)
      = ((tr.filter (fun r => r.severity = "medium")).take (6 - p)).map
          (fun r => "Review: " ++ r.title) := by
  induction tr generalizing p with
  | nil => simp [review_items]
  | cons r rs ih =>
    by_cases hm : r.severity = "medium"
    · by_cases hp : p ≤ 5
      · have h1 : 6 - p = (6 - (p + 1)) + 1 := by omega
        simp only [review_items,
          if_pos (show r.severity = "medium" ∧ p ≤ 5 from ⟨hm, hp⟩), List.map_cons]
        rw [List.filter_cons, if_pos (by simp [hm]), h1, List.take_succ_cons,
          List.map_cons, ih (p + 1)]
      · have h0 : 6 - p = 0 := by omega
        have hc : ¬(r.severity = "medium" ∧ p ≤ 5) := fun hc => hp hc.2
        simp only [review_items, if_neg hc]
        rw [ih p]
        simp [h0]
    · have hc : ¬(r.severity = "medium" ∧ p ≤ 5) := fun hc => hm hc.1
      simp only [review_items, if_neg hc]
      rw [ih p]
      simp [List.filter_cons, hm]

theorem review_call_items_nonempty_iff (lvl : String) (p : Nat) :
    review_call_items lvl p ≠ [] ↔ (lvl = "yellow" ∨ lvl = "red") := by
  unfold review_call_items
  split
  · next h => simp [h]
  · next h => simp [h]

/-- C6 (amended): the action plan contains no per-area items.  It is the
concatenation of one "Address" item per high-severity top risk (in order,
with no omission), then "Review" items for the initial segment of the
medium-severity top risks admitted by the priority-at-most-5 cap, then a
single trailing review-call item present exactly when the overall tier is
yellow or red, with urgency "high" exactly when the tier is red. -/
theorem c6_plan_structure (answers : List AssessmentAnswer) (modules : List String) :
    ∃ hi mid call : List ActionItem,
      (calculate_score_and_risks answers modules).action_plan = hi ++ mid ++ call
      ∧ hi.map (fun i => i.action)
          = ((calculate_score_and_risks answers modules).top_risks.filter
              (fun r => r.severity = "high")).map (fun r => "Address: " ++ r.title)
      ∧ (∀ item ∈ hi, item.urgency = "high")
      ∧ mid.map (fun i => i.action)
          = (((calculate_score_and_risks answers modules).top_risks.filter
              (fun r => r.severity = "medium")).take (6 - (1 + hi.length))).map
              (fun r => "Review: " ++ r.title)
      ∧ (∀ item ∈ mid, item.urgency = "medium")
      ∧ (call = [] ∨ ∃ c : ActionItem, call = [c]
          ∧ c.action = "Schedule a CLBH Review Call"
          ∧ c.urgency = (if (calculate_score_and_risks answers modules).risk_level = "red"
              then "high" else "medium"))
      ∧ (call ≠ [] ↔ ((calculate_score_and_risks answers modules).risk_level = "yellow"
          ∨ (calculate_score_and_risks answers modules).risk_level = "red")) := by
  refine ⟨(address_items (top_risks_of answers) 1).1,
    (review_items (top_risks_of answers) (address_items (top_risks_of answers) 1).2).1,
    review_call_items (risk_level_of answers modules)
      (review_items (top_risks_of answers) (address_items (top_risks_of answers) 1).2).2,
    rfl, address_items_actions (top_risks_of answers) 1, ?_, ?_, ?_, ?_, ?_⟩
  · intro item hitem
    exact (mem_address_items hitem).1
  · rw [← address_items_snd (top_risks_of answers) 1]
    exact review_items_actions (top_risks_of answers)
      ((address_items (top_risks_of answers) 1).2)
  · intro item hitem
    exact (mem_review_items hitem).1
  · unfold review_call_items
    split
    · exact Or.inr ⟨_, rfl, rfl, rfl⟩
    · exact Or.inl rfl
  · exact review_call_items_nonempty_iff (risk_level_of answers modules) _

/-- Input for the C6 counterexample: twenty 1-point answers to the unmapped
question `lease_12` (area score 20, the worst band) plus one high-point
ownership answer keeping the overall tier green. -/
def c6_cex_answers : List AssessmentAnswer :=
  List.replicate 20 ⟨"lease_12", "no", 1, false⟩ ++ [⟨"own_1", "green", 180, false⟩]

/-- C6 counterexample: the selected area "lease" has aggregate score 20,
squarely in the worst band (below 35, inside the catalog's stated RED band
20-34), yet the returned action plan is empty: the code emits no per-area
action item at all. -/
theorem c6_no_area_items_counterexample :
    "lease" ∈ ["lease", "ownership"]
    ∧ area_score "lease" c6_cex_answers = 20
    ∧ area_score "lease" c6_cex_answers < 35
    ∧ (calculate_score_and_risks c6_cex_answers ["lease", "ownership"]).action_plan = [] := by
  refine ⟨by decide, by decide, by decide, ?_⟩
  have htot : total_score_of c6_cex_answers = 200 := by decide
  have hfl : (trigger_flags_of c6_cex_answers).length = 0 := by decide
  have havg : avg_score_per_module_of c6_cex_answers ["lease", "ownership"] = 100 := by
    unfold avg_score_per_module_of
    rw [htot]
    norm_num
    simp
  have hr : risk_level_of c6_cex_answers ["lease", "ownership"] = "green" := by
    unfold risk_level_of apply_flag_override base_risk_level
    rw [havg, hfl]
    norm_num
  show (generate_action_plan (top_risks_of c6_cex_answers)
      (risk_level_of c6_cex_answers ["lease", "ownership"]) ["lease", "ownership"]) = []
  rw [hr]
  decide

/-- C7: an answer whose question id does not resolve through `get_risk_key`
and the risk catalog still contributes its points to `total_score` and,
when flagged, its question id to `trigger_flags`; it yields no top-risk
entry, every top-risk entry comes from some resolvable answer, and the
computation is total (no error is possible). -/
theorem c7_resolver_miss (answers : List AssessmentAnswer) (modules : List String)
    (a : AssessmentAnswer) (ha : a ∈ answers)
    (hmiss : ∀ k, get_risk_key a.question_id = some k →
        RISK_DESCRIPTIONS (normalize_module (module_token a.question_id)) k = none) :
    (calculate_score_and_risks answers modules).total_score
        = (answers.map (fun x => x.points)).sum
    ∧ (a.trigger_flag = true →
        a.question_id ∈ (calculate_score_and_risks answers modules).trigger_flags)
    ∧ risk_entry a = none
    ∧ ∀ r ∈ (calculate_score_and_risks answers modules).top_risks,
        ∃ b ∈ answers, risk_entry b = some r := by
  refine ⟨rfl, ?_, ?_, ?_⟩
  · intro hflag
    show a.question_id ∈ trigger_flags_of answers
    unfold trigger_flags_of
    exact List.mem_map_of_mem _ (List.mem_filter.2 ⟨ha, by simp [hflag]⟩)
  · unfold risk_entry
    split
    · cases hk : get_risk_key a.question_id with
      | none => rfl
      | some key =>
        simp only [hmiss key hk]
    · rfl
  · intro r hr
    have hr' : r ∈ ((sorted_answers_of answers).take 7).filterMap risk_entry := hr
    obtain ⟨b, hb, hfb⟩ := List.mem_filterMap.1 hr'
    exact ⟨b, mem_sorted_answers.1 (List.take_subset 7 _ hb), hfb⟩

/-- C7 witness: the unmapped question id `lease_12` at a concrete input. -/
theorem c7_resolver_miss_witness :
    (calculate_score_and_risks [⟨"lease_12", "no", 1, true⟩] ["lease"]).total_score
        = (([⟨"lease_12", "no", 1, true⟩] : List AssessmentAnswer).map (fun x => x.points)).sum
    ∧ ((⟨"lease_12", "no", 1, true⟩ : AssessmentAnswer).trigger_flag = true →
        (⟨"lease_12", "no", 1, true⟩ : AssessmentAnswer).question_id
          ∈ (calculate_score_and_risks [⟨"lease_12", "no", 1, true⟩] ["lease"]).trigger_flags)
    ∧ risk_entry ⟨"lease_12", "no", 1, true⟩ = none
    ∧ ∀ r ∈ (calculate_score_and_risks [⟨"lease_12", "no", 1, true⟩] ["lease"]).top_risks,
        ∃ b ∈ ([⟨"lease_12", "no", 1, true⟩] : List AssessmentAnswer),
          risk_entry b = some r :=
  c7_resolver_miss [⟨"lease_12", "no", 1, true⟩] ["lease"] ⟨"lease_12", "no", 1, true⟩
    (by decide) (fun k hk => by simp [get_risk_key] at hk)

/-- C10 (amended): when every submitted answer is worth at least 1 point
(as all catalog options are), every high-severity entry of `top_risks`
precedes every medium-severity entry, because candidates are processed in
ascending order of the underlying answer's points. -/
theorem c10_high_before_medium (answers : List AssessmentAnswer) (modules : List String)
    (hpts : ∀ a ∈ answers, 1 ≤ a.points) :
    List.Pairwise (fun r s => s.severity = "high" → r.severity = "high")
      (calculate_score_and_risks answers modules).top_risks := by
  show List.Pairwise _ (top_risks_of answers)
  unfold top_risks_of
  refine pairwise_filterMap_of_pairwise risk_entry
    (List.Pairwise.sublist (List.take_sublist 7 _) (pairwise_sorted_answers answers)) ?_
  intro a b ha hb hab r s hfa hfb hs
  have ha' : a ∈ answers := mem_sorted_answers.1 (List.take_subset 7 _ ha)
  have hb' : b ∈ answers := mem_sorted_answers.1 (List.take_subset 7 _ hb)
  obtain ⟨hA2, hAsev⟩ := severity_of_risk_entry hfa
  obtain ⟨hB2, hBsev⟩ := severity_of_risk_entry hfb
  have hb1 : b.points = 1 := by
    by_contra hne
    rw [if_neg hne] at hBsev
    rw [hBsev] at hs
    exact absurd hs (by decide)
  have ha1 : a.points = 1 := by
    have h1 := hpts a ha'
    omega
  rw [hAsev, if_pos ha1]

/-- C10 witness: a single catalog-valued 1-point answer. -/
theorem c10_high_before_medium_witness :
    List.Pairwise (fun r s => s.severity = "high" → r.severity = "high")
      (calculate_score_and_risks [⟨"lease_1", "red", 1, true⟩] ["lease"]).top_risks :=
  c10_high_before_medium [⟨"lease_1", "red", 1, true⟩] ["lease"] (by decide)

/-- C10 counterexample: a client-submitted 0-point answer yields a
medium-severity entry that is sorted before a 1-point answer's
high-severity entry, so the claimed "all high before all medium" fails for
unrestricted inputs. -/
theorem c10_medium_precedes_high_counterexample :
    ((calculate_score_and_risks
        [⟨"lease_1", "zero", 0, false⟩, ⟨"lease_3", "red", 1, false⟩]
        ["lease"]).top_risks.map (fun r => r.severity)) = ["medium", "high"] := by
  decide
